import Mathlib

/-!
Shallow embedding of `src/flappy_bird.c`.

Modelling conventions:
* C `float`/`double` values (bird `x`, `y`, `velocity`, the `GRAVITY` and
  `JUMP_FORCE` constants) are embedded as exact rationals `Rat`.
* C `int` values (rectangle fields, pipe `x`, `gap_y`, `score`) are `Int`.
* The C cast `(int)f` truncates toward zero; it is embedded as `trunc`.
* `SDL_GetTicks()` timestamps are `Nat` milliseconds; the monotone clock
  never wraps in the model, so `Uint32` subtraction is `Nat` subtraction.
* `rand()` is an arbitrary non-negative sample passed in as a `Nat`
  parameter `r`; `rand() % m` becomes `(r : Int) % m`.
* The fixed array `Pipe pipes[MAX_PIPES]` is a `List Pipe` (length
  `MAX_PIPES` where it matters); per-frame mutation of `score` and
  `game_over` inside the pipe loop is explicit accumulator passing.
-/

/-- Window width (`SCREEN_WIDTH`, 800). -/
def SCREEN_WIDTH : Int := 800

/-- Window height (`SCREEN_HEIGHT`, 600). -/
def SCREEN_HEIGHT : Int := 600

/-- Bird bounding-box width (`BIRD_WIDTH`, 40). -/
def BIRD_WIDTH : Int := 40

/-- Bird bounding-box height (`BIRD_HEIGHT`, 30). -/
def BIRD_HEIGHT : Int := 30

/-- Per-frame gravity (`GRAVITY`, 0.4), exact rational in the model. -/
def GRAVITY : Rat := 0.4

/-- Jump impulse (`JUMP_FORCE`, -8.0). -/
def JUMP_FORCE : Rat := -8.0

/-- Pipe width (`PIPE_WIDTH`, 60). -/
def PIPE_WIDTH : Int := 60

/-- Vertical gap between the two pipe rectangles (`PIPE_GAP`, 170). -/
def PIPE_GAP : Int := 170

/-- Horizontal scroll speed (`PIPE_SPEED`, 3). -/
def PIPE_SPEED : Int := 3

/-- Capacity of the pipe ring buffer (`MAX_PIPES`, 10). -/
def MAX_PIPES : Nat := 10

/-- Spawn interval in milliseconds (`PIPE_SPAWN_TIME`, 1500). -/
def PIPE_SPAWN_TIME : Nat := 1500

/-- C cast from a rational to an integer: truncation toward zero, the
semantics of `(int)x` for a C floating value `x`. -/
def trunc (q : Rat) : Int := q.num.tdiv (q.den : Int)

/-- `SDL_Rect`: integer position and size. -/
structure Rect where
  x : Int
  y : Int
  w : Int
  h : Int
deriving Repr, DecidableEq

/-- The `Bird` struct: real-valued position and velocity plus the derived
integer bounding box `rect`. -/
structure Bird where
  x : Rat
  y : Rat
  velocity : Rat
  rect : Rect
deriving Repr, DecidableEq

/-- The `Pipe` struct: scroll position `x`, gap center `gap_y`, the scored
latch `passed`, and the two derived rectangles. -/
structure Pipe where
  x : Int
  gap_y : Int
  passed : Bool
  top_rect : Rect
  bottom_rect : Rect
deriving Repr, DecidableEq

/-- The process-wide mutable game state of `flappy_bird.c`: globals `bird`,
`pipes[MAX_PIPES]`, `next_pipe`, `game_over`, `score`, `last_pipe_time`. -/
structure GameState where
  bird : Bird
  pipes : List Pipe
  next_pipe : Nat
  game_over : Bool
  score : Int
  last_pipe_time : Nat
deriving Repr, DecidableEq

/-- `create_pipe` (lines 188-212), the pipe it builds: position, random gap
center from `rand()` sample `r`, and both derived rectangles. -/
def create_pipe (r : Nat) : Pipe :=
  let x := SCREEN_WIDTH
  let min_gap_y := PIPE_GAP / 2 + 50
  let max_gap_y := SCREEN_HEIGHT - PIPE_GAP / 2 - 50
  let gap_y := min_gap_y + (r : Int) % (max_gap_y - min_gap_y)
  { x := x
    gap_y := gap_y
    passed := false
    top_rect := { x := x, y := 0, w := PIPE_WIDTH, h := gap_y - PIPE_GAP / 2 }
    bottom_rect := { x := x, y := gap_y + PIPE_GAP / 2, w := PIPE_WIDTH,
                     h := SCREEN_HEIGHT - (gap_y + PIPE_GAP / 2) } }

/-- `check_collision` (lines 214-237): axis-aligned rectangle overlap with
open boundaries (touching edges do not collide). -/
def check_collision (a b : Rect) : Bool :=
  let left_a := a.x
  let right_a := a.x + a.w
  let top_a := a.y
  let bottom_a := a.y + a.h
  let left_b := b.x
  let right_b := b.x + b.w
  let top_b := b.y
  let bottom_b := b.y + b.h
  if bottom_a ≤ top_b then false
  else if top_a ≥ bottom_b then false
  else if right_a ≤ left_b then false
  else if left_a ≥ right_b then false
  else true

/-- The bird-physics block of `update_game` (lines 249-260): integrate
gravity and velocity, refresh the bounding box with the C int cast, then
apply the ceiling clamp. -/
def bird_physics (b : Bird) : Bird :=
  let v := b.velocity + GRAVITY
  let y := b.y + v
  let ry := trunc y
  if ry < 0 then
    { b with y := 0, velocity := 0, rect := { b.rect with y := 0 } }
  else
    { b with y := y, velocity := v, rect := { b.rect with y := ry } }

/-- Pipe movement inside the update loop (lines 276-278): scroll `x` and
refresh both rectangles' `x`. -/
def move_pipe (p : Pipe) : Pipe :=
  { p with x := p.x - PIPE_SPEED,
           top_rect := { p.top_rect with x := p.x - PIPE_SPEED },
           bottom_rect := { p.bottom_rect with x := p.x - PIPE_SPEED } }

/-- One iteration of the pipe loop of `update_game` (lines 269-293) for a
single slot: skip far-off-screen slots, otherwise move, score, and test
collision, threading the `score` and `game_over` accumulators. -/
def pipe_step (birdRect : Rect) (p : Pipe) (sc : Int) (go : Bool) :
    Pipe × Int × Bool :=
  if p.x > SCREEN_WIDTH + 100 then (p, sc, go)
  else
    let q := move_pipe p
    let scored :=
      if q.passed = false ∧ q.x + PIPE_WIDTH < birdRect.x then
        ({ q with passed := true }, sc + 1)
      else (q, sc)
    let go2 := go || check_collision birdRect scored.1.top_rect ||
               check_collision birdRect scored.1.bottom_rect
    (scored.1, scored.2, go2)

/-- The whole pipe loop of `update_game` (lines 269-293) over the slot
list, left to right, as in the C `for` loop. -/
def update_pipes (birdRect : Rect) : List Pipe → Int → Bool →
    List Pipe × Int × Bool
  | [], sc, go => ([], sc, go)
  | p :: ps, sc, go =>
    let stepped := pipe_step birdRect p sc go
    let rest := update_pipes birdRect ps stepped.2.1 stepped.2.2
    (stepped.1 :: rest.1, rest.2.1, rest.2.2)

/-- The spawn block of `update_game` (lines 241-247) together with the
array write and cursor advance of `create_pipe` (lines 210-211): when the
interval has elapsed, overwrite the next ring-buffer slot and restamp the
timer. -/
def spawn_step (now : Nat) (r : Nat) (s : GameState) : GameState :=
  if now - s.last_pipe_time > PIPE_SPAWN_TIME then
    { s with pipes := s.pipes.set s.next_pipe (create_pipe r),
             next_pipe := (s.next_pipe + 1) % MAX_PIPES,
             last_pipe_time := now }
  else s

/-- `update_game` (lines 239-294): spawn when due, bird physics with
ceiling clamp, ground check, then the pipe loop. `now` is
`SDL_GetTicks()`; `r` the `rand()` sample a spawn would consume. -/
def update_game (now : Nat) (r : Nat) (s : GameState) : GameState :=
  let s1 := spawn_step now r s
  let b := bird_physics s1.bird
  let go1 := if b.rect.y + b.rect.h > SCREEN_HEIGHT - 20 then true
             else s1.game_over
  let looped := update_pipes b.rect s1.pipes s1.score go1
  { s1 with bird := b, pipes := looped.1, score := looped.2.1,
            game_over := looped.2.2 }

/-- `reset_game` (lines 426-449): re-center the bird, push every pipe slot
off-screen (only the `x` field is written; the rest stays stale), clear
score and `game_over`, and stamp the spawn timer with `now`. -/
def reset_game (now : Nat) (s : GameState) : GameState :=
  let bx : Rat := ((SCREEN_WIDTH / 4 : Int) : Rat)
  let cy : Rat := ((SCREEN_HEIGHT / 2 : Int) : Rat)
  { bird := { x := bx, y := cy, velocity := 0,
              rect := { x := trunc bx, y := trunc cy,
                        w := BIRD_WIDTH, h := BIRD_HEIGHT } }
    pipes := s.pipes.map (fun p => { p with x := SCREEN_WIDTH * 2 })
    next_pipe := s.next_pipe
    game_over := false
    score := 0
    last_pipe_time := now }

/-- The jump-signal branch of the main loop (lines 131-163): restart when
game over, otherwise an impulse assignment to the velocity. -/
def handle_jump (now : Nat) (s : GameState) : GameState :=
  if s.game_over then reset_game now s
  else { s with bird := { s.bird with velocity := JUMP_FORCE } }

/-- One iteration of the main loop (lines 122-177) as it affects the
simulation state: event handling (the jump signal, when present), then
`update_game` guarded by `game_over` (lines 166-170). -/
def tick (now : Nat) (r : Nat) (jump : Bool) (s : GameState) : GameState :=
  let s1 := if jump then handle_jump now s else s
  if s1.game_over then s1 else update_game now r s1

/-- The renderer's visibility test for a pipe slot (line 306): drawn only
when part of the pipe is horizontally on screen. -/
def pipe_on_screen (p : Pipe) : Bool :=
  decide (p.x + PIPE_WIDTH > 0) && decide (p.x < SCREEN_WIDTH)

/-- Whether some slot of the list, as processed by the pipe loop, collides
with the bird rectangle after moving (far-off-screen slots are skipped). -/
def pipes_collide (birdRect : Rect) : List Pipe → Bool
  | [] => false
  | p :: ps =>
    (if p.x > SCREEN_WIDTH + 100 then false
     else check_collision birdRect (move_pipe p).top_rect ||
          check_collision birdRect (move_pipe p).bottom_rect) ||
    pipes_collide birdRect ps

/-- Number of slots whose `passed` latch flips false to true between two
parallel slot lists. -/
def flipCount (old new : List Pipe) : Nat :=
  (old.zip new).countP fun pq => !pq.1.passed && pq.2.passed

/-! ### Concrete states used for witnesses and counterexamples -/

/-- A pipe slot parked off-screen right, as `reset_game` leaves slots. -/
def pipeOff : Pipe :=
  { x := 1600, gap_y := 0, passed := false,
    top_rect := { x := 0, y := 0, w := 0, h := 0 },
    bottom_rect := { x := 0, y := 0, w := 0, h := 0 } }

/-- A mid-flight game state with a gently rising bird (velocity 3/5, so
one frame of gravity makes the velocity exactly 1). -/
def stateA : GameState :=
  { bird := { x := 200, y := 300, velocity := 3/5,
              rect := { x := 200, y := 300, w := 40, h := 30 } },
    pipes := [], next_pipe := 0, game_over := false, score := 0,
    last_pipe_time := 0 }

/-- A state one frame away from crossing the ceiling with a fractional
overshoot: after one update the real `y` is `-1/2`. -/
def stateNeg : GameState :=
  { bird := { x := 200, y := 0, velocity := -9/10,
              rect := { x := 200, y := 0, w := 40, h := 30 } },
    pipes := [], next_pipe := 0, game_over := false, score := 0,
    last_pipe_time := 0 }

/-- A state one frame away from a hard ceiling hit: after one update the
box `y` is negative and the clamp fires. -/
def stateClamp : GameState :=
  { bird := { x := 200, y := 0, velocity := -12/5,
              rect := { x := 200, y := 0, w := 40, h := 30 } },
    pipes := [], next_pipe := 0, game_over := false, score := 0,
    last_pipe_time := 0 }

/-- A state one frame away from the ground band: after one update the box
`y` is 581 and the ground check fires. -/
def stateGround : GameState :=
  { bird := { x := 200, y := 580, velocity := 3/5,
              rect := { x := 200, y := 580, w := 40, h := 30 } },
    pipes := [], next_pipe := 0, game_over := false, score := 0,
    last_pipe_time := 0 }

/-- A finished game: `game_over` latched, a pipe still mid-screen. -/
def stateOver : GameState :=
  { bird := { x := 200, y := 300, velocity := 5,
              rect := { x := 200, y := 300, w := 40, h := 30 } },
    pipes := [pipeOff], next_pipe := 3, game_over := true, score := 7,
    last_pipe_time := 42 }

/-- A live game with prior upward velocity 5, about to receive a jump. -/
def stateFast : GameState :=
  { bird := { x := 200, y := 300, velocity := 5,
              rect := { x := 200, y := 300, w := 40, h := 30 } },
    pipes := [], next_pipe := 0, game_over := false, score := 0,
    last_pipe_time := 0 }

/-- An unpassed pipe about to scroll past the bird's box `x`. -/
def pipeNear : Pipe :=
  { x := 142, gap_y := 300, passed := false,
    top_rect := { x := 142, y := 0, w := 60, h := 215 },
    bottom_rect := { x := 142, y := 385, w := 60, h := 215 } }

/-! ### Basic lemmas about the embedded operations -/

/-- The C int cast is the identity on integers. -/
theorem trunc_intCast (n : Int) : trunc ((n : Int) : Rat) = n := by
  simp [trunc, Rat.num_intCast, Rat.den_intCast]

/-- On non-negative rationals the C int cast agrees with the floor. -/
theorem trunc_eq_floor (q : Rat) (h : 0 ≤ q) : trunc q = ⌊q⌋ := by
  rw [Rat.floor_def, trunc]
  exact Int.tdiv_eq_ediv (Rat.num_nonneg.mpr h) (Int.ofNat_nonneg _)

/-- Spawning does not touch the bird. -/
theorem spawn_step_bird (now r : Nat) (s : GameState) :
    (spawn_step now r s).bird = s.bird := by
  unfold spawn_step
  split <;> rfl

/-- Spawning does not touch the score. -/
theorem spawn_step_score (now r : Nat) (s : GameState) :
    (spawn_step now r s).score = s.score := by
  unfold spawn_step
  split <;> rfl

/-- Spawning does not touch the game-over flag. -/
theorem spawn_step_game_over (now r : Nat) (s : GameState) :
    (spawn_step now r s).game_over = s.game_over := by
  unfold spawn_step
  split <;> rfl

/-- After the physics block the bounding-box `y` is always the C int cast
of the real `y` (the clamp branch re-establishes it at `0`). -/
theorem bird_physics_rect_y (b : Bird) :
    (bird_physics b).rect.y = trunc (bird_physics b).y := by
  simp only [bird_physics]
  split
  · show (0 : Int) = trunc 0
    simp [trunc]
  · rfl

/-- The physics block does not change the box height. -/
theorem bird_physics_rect_h (b : Bird) :
    (bird_physics b).rect.h = b.rect.h := by
  simp only [bird_physics]
  split <;> rfl

/-- The physics block does not change the box `x`. -/
theorem bird_physics_rect_x (b : Bird) :
    (bird_physics b).rect.x = b.rect.x := by
  simp only [bird_physics]
  split <;> rfl

/-- Score bookkeeping of one pipe-loop iteration: the accumulator grows by
one exactly when the slot's `passed` latch flips. -/
theorem pipe_step_score_flip (rect : Rect) (p : Pipe) (sc : Int) (go : Bool) :
    (pipe_step rect p sc go).2.1 =
      sc + (if !p.passed && (pipe_step rect p sc go).1.passed
            then (1 : Int) else 0) := by
  unfold pipe_step move_pipe
  split
  · simp
  · dsimp only
    split
    · rename_i h
      simp [h.1]
    · rename_i h
      rcases hp : p.passed <;> simp [hp]

/-- Game-over bookkeeping of one pipe-loop iteration. -/
theorem pipe_step_go (rect : Rect) (p : Pipe) (sc : Int) (go : Bool) :
    (pipe_step rect p sc go).2.2 =
      (go || (if p.x > SCREEN_WIDTH + 100 then false
              else check_collision rect (move_pipe p).top_rect ||
                   check_collision rect (move_pipe p).bottom_rect)) := by
  unfold pipe_step
  split
  · simp
  · dsimp only
    split <;> simp [Bool.or_assoc]

/-- The pipe loop adds to the score exactly the number of slots whose
`passed` latch flips during the loop. -/
theorem update_pipes_score (rect : Rect) (ps : List Pipe) (sc : Int)
    (go : Bool) :
    (update_pipes rect ps sc go).2.1 =
      sc + (flipCount ps (update_pipes rect ps sc go).1 : Int) := by
  induction ps generalizing sc go with
  | nil => simp [update_pipes, flipCount]
  | cons p ps ih =>
    simp only [update_pipes]
    rw [ih]
    rw [pipe_step_score_flip]
    simp only [flipCount, List.zip_cons_cons, List.countP_cons]
    rcases hflip : !p.passed && (pipe_step rect p sc go).1.passed <;>
      simp [hflip, flipCount] <;> push_cast <;> ring

/-- The pipe loop only accumulates into the game-over flag: the result is
the incoming flag or-ed with the collision status of the slot list. -/
theorem update_pipes_go (rect : Rect) (ps : List Pipe) (sc : Int)
    (go : Bool) :
    (update_pipes rect ps sc go).2.2 = (go || pipes_collide rect ps) := by
  induction ps generalizing sc go with
  | nil => simp [update_pipes, pipes_collide]
  | cons p ps ih =>
    simp only [update_pipes, pipes_collide]
    rw [ih, pipe_step_go, Bool.or_assoc]

/-- The bird after a frame update is exactly the physics block applied to
the bird before it. -/
theorem update_game_bird (now r : Nat) (s : GameState) :
    (update_game now r s).bird = bird_physics s.bird := by
  simp only [update_game]
  rw [spawn_step_bird]

/-- Score accounting over a whole frame update. -/
theorem update_game_score_eq (now r : Nat) (s : GameState) :
    (update_game now r s).score =
      s.score + (flipCount (spawn_step now r s).pipes
                  (update_game now r s).pipes : Int) := by
  simp only [update_game]
  rw [update_pipes_score, spawn_step_score]

/-- Game-over accounting over a whole frame update: the ground check or-ed
with the pipe collision status. -/
theorem update_game_game_over_eq (now r : Nat) (s : GameState) :
    (update_game now r s).game_over =
      ((if (bird_physics s.bird).rect.y + (bird_physics s.bird).rect.h >
           SCREEN_HEIGHT - 20 then true else s.game_over) ||
       pipes_collide (bird_physics s.bird).rect (spawn_step now r s).pipes) := by
  simp only [update_game]
  rw [update_pipes_go, spawn_step_bird, spawn_step_game_over]

/-- Characterization of non-collision: exactly the four separating-edge
conditions of lines 227-234. -/
theorem check_collision_eq_false_iff (a b : Rect) :
    check_collision a b = false ↔
      (a.y + a.h ≤ b.y ∨ a.y ≥ b.y + b.h ∨ a.x + a.w ≤ b.x ∨
       a.x ≥ b.x + b.w) := by
  simp only [check_collision]
  split_ifs <;> simp <;> omega

/-- The collision test is symmetric in its two rectangles. -/
theorem check_collision_comm (a b : Rect) :
    check_collision a b = check_collision b a := by
  have h1 := check_collision_eq_false_iff a b
  have h2 := check_collision_eq_false_iff b a
  rcases hab : check_collision a b <;> rcases hba : check_collision b a <;>
    simp_all <;> omega

/-- When the post-physics box `y` is negative, the clamp zeroes `y`, the
box `y`, and the velocity. -/
theorem bird_physics_clamped (b : Bird)
    (h : trunc (b.y + (b.velocity + GRAVITY)) < 0) :
    (bird_physics b).y = 0 ∧ (bird_physics b).rect.y = 0 ∧
    (bird_physics b).velocity = 0 := by
  simp [bird_physics, h]

/-- A still-relevant unpassed slot whose moved right edge is strictly left
of the bird's box `x` gets latched and scores exactly one point. -/
theorem pipe_step_scores (rect : Rect) (p : Pipe) (sc : Int) (go : Bool)
    (hx : p.x ≤ SCREEN_WIDTH + 100) (hp : p.passed = false)
    (hlt : p.x - PIPE_SPEED + PIPE_WIDTH < rect.x) :
    (pipe_step rect p sc go).1.passed = true ∧
    (pipe_step rect p sc go).2.1 = sc + 1 := by
  unfold pipe_step move_pipe
  rw [if_neg (by omega)]
  dsimp only
  rw [if_pos ⟨hp, hlt⟩]
  exact ⟨rfl, rfl⟩

/-- A slot already latched as passed never changes the score. -/
theorem pipe_step_passed_keeps_score (rect : Rect) (p : Pipe) (sc : Int)
    (go : Bool) (hp : p.passed = true) :
    (pipe_step rect p sc go).2.1 = sc := by
  unfold pipe_step move_pipe
  split
  · rfl
  · dsimp only
    rw [if_neg (by simp [hp])]

/-- A far-off-screen slot is skipped: the loop body is the identity on the
slot and both accumulators. -/
theorem pipe_step_skip (rect : Rect) (p : Pipe) (sc : Int) (go : Bool)
    (h : p.x > SCREEN_WIDTH + 100) :
    pipe_step rect p sc go = (p, sc, go) := by
  unfold pipe_step
  rw [if_pos h]

/-- If every slot is far off-screen the whole pipe loop is the identity. -/
theorem update_pipes_skip_all (rect : Rect) (ps : List Pipe) (sc : Int)
    (go : Bool) (h : ∀ p ∈ ps, p.x > SCREEN_WIDTH + 100) :
    update_pipes rect ps sc go = (ps, sc, go) := by
  induction ps generalizing sc go with
  | nil => rfl
  | cons p ps ih =>
    have hp : p.x > SCREEN_WIDTH + 100 := h p (List.mem_cons_self p ps)
    simp only [update_pipes, pipe_step_skip rect p sc go hp]
    rw [ih sc go (fun q hq => h q (List.mem_cons_of_mem p hq))]

/-- The C cast of `-1/2` is `0` (truncation toward zero). -/
theorem trunc_neg_half : trunc (-1/2 : Rat) = 0 := by
  have h1 : (-1/2 : Rat).num = -1 := by norm_num
  have h2 : ((-1/2 : Rat).den : Int) = 2 := by norm_num
  rw [trunc, h1, h2]
  decide

/-- Modulus form of the spawned gap center: `135 + r % 330`. -/
theorem create_pipe_gap_y (r : Nat) :
    (create_pipe r).gap_y = 135 + (r : Int) % 330 := by
  simp only [create_pipe, PIPE_GAP, SCREEN_HEIGHT]
  norm_num

/-- The spawned gap center always lies in `[135, 465)`. -/
theorem create_pipe_gap_y_range (r : Nat) :
    135 ≤ (create_pipe r).gap_y ∧ (create_pipe r).gap_y < 465 := by
  rw [create_pipe_gap_y]
  have h0 : 0 ≤ (r : Int) % 330 := Int.emod_nonneg _ (by norm_num)
  have h1 : (r : Int) % 330 < 330 := Int.emod_lt_of_pos _ (by norm_num)
  omega

/-- The spawned upper rectangle in closed form. -/
theorem create_pipe_top_rect (r : Nat) :
    (create_pipe r).top_rect =
      { x := SCREEN_WIDTH, y := 0, w := PIPE_WIDTH,
        h := (create_pipe r).gap_y - 85 } := by
  simp only [create_pipe, PIPE_GAP, SCREEN_HEIGHT]
  norm_num

/-- The spawned lower rectangle in closed form. -/
theorem create_pipe_bottom_rect (r : Nat) :
    (create_pipe r).bottom_rect =
      { x := SCREEN_WIDTH, y := (create_pipe r).gap_y + 85,
        w := PIPE_WIDTH,
        h := SCREEN_HEIGHT - ((create_pipe r).gap_y + 85) } := by
  simp only [create_pipe, PIPE_GAP, SCREEN_HEIGHT]
  norm_num

/-- C3: `check_collision a b` is false iff one of the four separating-edge
conditions holds (`a.bottom ≤ b.top`, `a.top ≥ b.bottom`,
`a.right ≤ b.left`, `a.left ≥ b.right` with `right = x + w`,
`bottom = y + h`); rectangles sharing only a boundary edge never collide;
and the predicate is symmetric. -/
theorem collision_separation_spec :
    (∀ a b : Rect, check_collision a b = false ↔
      (a.y + a.h ≤ b.y ∨ a.y ≥ b.y + b.h ∨ a.x + a.w ≤ b.x ∨
       a.x ≥ b.x + b.w)) ∧
    (∀ a b : Rect, a.x + a.w = b.x → check_collision a b = false) ∧
    (∀ a b : Rect, check_collision a b = check_collision b a) := by
  refine ⟨check_collision_eq_false_iff, ?_, check_collision_comm⟩
  intro a b h
  rw [check_collision_eq_false_iff]
  omega

/-- Witness for C3 at concrete rectangles sharing only the edge `x = 10`. -/
theorem collision_separation_witness :
    check_collision { x := 0, y := 0, w := 10, h := 10 }
      { x := 10, y := 0, w := 10, h := 10 } = false :=
  collision_separation_spec.2.1
    { x := 0, y := 0, w := 10, h := 10 }
    { x := 10, y := 0, w := 10, h := 10 } (by decide)

/-- C6: after `reset_game`, regardless of prior state: `game_over` is
false, the score is 0, the bird sits at `(screen_width/4, screen_height/2)`
with zero velocity and a 40x30 box, every pipe slot (the list keeps its
length, 10 in the running program) has `x = 2 * screen_width ≥
screen_width`, and the spawn timestamp is `now`. -/
theorem reset_state_spec (now : Nat) (s : GameState) :
    (reset_game now s).game_over = false ∧
    (reset_game now s).score = 0 ∧
    (reset_game now s).bird.x = ((SCREEN_WIDTH / 4 : Int) : Rat) ∧
    (reset_game now s).bird.y = ((SCREEN_HEIGHT / 2 : Int) : Rat) ∧
    (reset_game now s).bird.velocity = 0 ∧
    (reset_game now s).bird.rect =
      { x := SCREEN_WIDTH / 4, y := SCREEN_HEIGHT / 2,
        w := BIRD_WIDTH, h := BIRD_HEIGHT } ∧
    (reset_game now s).pipes.length = s.pipes.length ∧
    (∀ p ∈ (reset_game now s).pipes,
      p.x = SCREEN_WIDTH * 2 ∧ SCREEN_WIDTH ≤ p.x) ∧
    (reset_game now s).last_pipe_time = now := by
  refine ⟨rfl, rfl, rfl, rfl, rfl, ?_, ?_, ?_, rfl⟩
  · simp [reset_game, trunc_intCast]
  · simp [reset_game]
  · intro p hp
    simp only [reset_game, List.mem_map] at hp
    obtain ⟨q, hq, rfl⟩ := hp
    exact ⟨rfl, by norm_num [SCREEN_WIDTH]⟩

/-- Witness for C6 at a concrete finished game state. -/
theorem reset_state_witness :
    (reset_game 99 stateOver).game_over = false ∧
    (reset_game 99 stateOver).last_pipe_time = 99 ∧
    pipeOff.x = SCREEN_WIDTH * 2 ∧ SCREEN_WIDTH ≤ pipeOff.x :=
  ⟨(reset_state_spec 99 stateOver).1,
   (reset_state_spec 99 stateOver).2.2.2.2.2.2.2.2,
   (reset_state_spec 99 stateOver).2.2.2.2.2.2.2.1 pipeOff (by decide)⟩

/-- C7: the jump signal on a live game is an impulse assignment: the
velocity becomes exactly `JUMP_FORCE = -8`, whatever it was before. -/
theorem jump_impulse_assignment (now : Nat) (s : GameState)
    (h : s.game_over = false) :
    (handle_jump now s).bird.velocity = JUMP_FORCE ∧
    (handle_jump now s).bird.velocity = -8 := by
  refine ⟨by simp [handle_jump, h], ?_⟩
  simp [handle_jump, h]
  norm_num [JUMP_FORCE]

/-- Witness for C7: prior velocity 5 becomes exactly -8, not -3. -/
theorem jump_impulse_witness :
    stateFast.bird.velocity = 5 ∧
    (handle_jump 0 stateFast).bird.velocity = -8 :=
  ⟨rfl, (jump_impulse_assignment 0 stateFast rfl).2⟩

/-- C8: every spawn sits at `x = screen_width` with `passed = false`,
`gap_y` ranges over exactly the integer interval `[135, 465)` (each value
is hit by some `rand()` sample), the derived boxes are the upper box from
`y = 0` with height `gap_y - 85` and the lower box from `y = gap_y + 85`
with height `600 - (gap_y + 85)`, both at least 50 tall; and the sample
giving `gap_y = 300` yields an upper box of height 215 and a lower box at
`y = 385` of height 215. -/
theorem create_pipe_placement :
    (∀ r : Nat,
      (create_pipe r).x = SCREEN_WIDTH ∧
      (create_pipe r).passed = false ∧
      135 ≤ (create_pipe r).gap_y ∧ (create_pipe r).gap_y < 465 ∧
      (create_pipe r).top_rect =
        { x := SCREEN_WIDTH, y := 0, w := PIPE_WIDTH,
          h := (create_pipe r).gap_y - 85 } ∧
      (create_pipe r).bottom_rect =
        { x := SCREEN_WIDTH, y := (create_pipe r).gap_y + 85,
          w := PIPE_WIDTH,
          h := SCREEN_HEIGHT - ((create_pipe r).gap_y + 85) } ∧
      50 ≤ (create_pipe r).top_rect.h ∧
      50 ≤ (create_pipe r).bottom_rect.h) ∧
    (∀ g : Int, 135 ≤ g → g < 465 →
      ∃ r : Nat, (create_pipe r).gap_y = g) ∧
    ((create_pipe 165).gap_y = 300 ∧ (create_pipe 165).top_rect.h = 215 ∧
     (create_pipe 165).bottom_rect.y = 385 ∧
     (create_pipe 165).bottom_rect.h = 215) := by
  refine ⟨?_, ?_, by decide, by decide, by decide, by decide⟩
  · intro r
    obtain ⟨hlo, hhi⟩ := create_pipe_gap_y_range r
    refine ⟨rfl, rfl, hlo, hhi, create_pipe_top_rect r,
            create_pipe_bottom_rect r, ?_, ?_⟩
    · rw [create_pipe_top_rect r]
      dsimp only
      omega
    · rw [create_pipe_bottom_rect r]
      dsimp only
      simp only [SCREEN_HEIGHT]
      omega
  · intro g h1 h2
    refine ⟨(g - 135).toNat, ?_⟩
    rw [create_pipe_gap_y]
    rw [Int.toNat_of_nonneg (by omega)]
    rw [Int.emod_eq_of_lt (by omega) (by omega)]
    omega

/-- Witness for C8's universally quantified range conjunct, at sample 7. -/
theorem create_pipe_placement_witness :
    135 ≤ (create_pipe 7).gap_y ∧ (create_pipe 7).gap_y < 465 ∧
    (∃ r : Nat, (create_pipe r).gap_y = 400) :=
  ⟨(create_pipe_placement.1 7).2.2.1, (create_pipe_placement.1 7).2.2.2.1,
   create_pipe_placement.2.1 400 (by decide) (by decide)⟩

/-- C9: once `game_over` is latched, a tick without the jump signal leaves
the whole state unchanged; with the jump signal the state is restarted by
`reset_game` (and the same iteration's `update_game` then runs on the
fresh state, as in lines 166-170). -/
theorem game_over_freeze (now r : Nat) (s : GameState)
    (h : s.game_over = true) :
    tick now r false s = s ∧
    tick now r true s = update_game now r (reset_game now s) := by
  have hro : (reset_game now s).game_over = false := rfl
  exact ⟨by simp [tick, h], by simp [tick, handle_jump, h, hro]⟩

/-- Witness for C9 at a concrete finished state. -/
theorem game_over_freeze_witness :
    tick 5 9 false stateOver = stateOver :=
  (game_over_freeze 5 9 stateOver rfl).1

/-- C10: a slot with `x > screen_width + 100` (every slot after reset,
where `x = 1600`) is inert: the loop body leaves slot, score, and
`game_over` untouched; the renderer never draws it; and a whole slot list
of such pipes makes the loop the identity — so the stale derived boxes of
a reset slot can neither end the game nor score. -/
theorem offscreen_slots_inert :
    (∀ (rect : Rect) (p : Pipe) (sc : Int) (go : Bool),
      p.x > SCREEN_WIDTH + 100 → pipe_step rect p sc go = (p, sc, go)) ∧
    (∀ p : Pipe, p.x > SCREEN_WIDTH + 100 → pipe_on_screen p = false) ∧
    (∀ (now : Nat) (s : GameState) (p : Pipe),
      p ∈ (reset_game now s).pipes → p.x > SCREEN_WIDTH + 100) ∧
    (∀ (rect : Rect) (ps : List Pipe) (sc : Int) (go : Bool),
      (∀ p ∈ ps, p.x > SCREEN_WIDTH + 100) →
      update_pipes rect ps sc go = (ps, sc, go)) := by
  refine ⟨pipe_step_skip, ?_, ?_, update_pipes_skip_all⟩
  · intro p h
    have hnot : ¬ (p.x < SCREEN_WIDTH) := by
      simp only [SCREEN_WIDTH] at h ⊢
      omega
    simp [pipe_on_screen, hnot]
  · intro now s p hp
    simp only [reset_game, List.mem_map] at hp
    obtain ⟨q, hq, rfl⟩ := hp
    norm_num [SCREEN_WIDTH]

/-- Witness for C10 at the parked slot `pipeOff`. -/
theorem offscreen_slots_inert_witness :
    pipe_step { x := 200, y := 300, w := 40, h := 30 } pipeOff 3 false =
      (pipeOff, 3, false) ∧
    pipe_on_screen pipeOff = false ∧
    update_pipes { x := 200, y := 300, w := 40, h := 30 } [pipeOff] 3 false =
      ([pipeOff], 3, false) :=
  ⟨offscreen_slots_inert.1 { x := 200, y := 300, w := 40, h := 30 }
      pipeOff 3 false (by decide),
   offscreen_slots_inert.2.1 pipeOff (by decide),
   offscreen_slots_inert.2.2.2 { x := 200, y := 300, w := 40, h := 30 }
      [pipeOff] 3 false (by intro p hp; simp at hp; subst hp; decide)⟩

/-- C2: a still-relevant unpassed slot whose moved right edge `x + 60` is
strictly left of the bird's box `x` is latched and adds exactly 1 to the
score; a latched slot never scores again; over the whole loop the score
grows by exactly the number of latch flips, hence is monotonically
non-decreasing, and over a whole live-frame update the score never
decreases. -/
theorem scoring_latch_monotone :
    (∀ (rect : Rect) (p : Pipe) (sc : Int) (go : Bool),
      p.x ≤ SCREEN_WIDTH + 100 → p.passed = false →
      p.x - PIPE_SPEED + PIPE_WIDTH < rect.x →
      (pipe_step rect p sc go).1.passed = true ∧
      (pipe_step rect p sc go).2.1 = sc + 1) ∧
    (∀ (rect : Rect) (p : Pipe) (sc : Int) (go : Bool),
      p.passed = true → (pipe_step rect p sc go).2.1 = sc) ∧
    (∀ (rect : Rect) (ps : List Pipe) (sc : Int) (go : Bool),
      (update_pipes rect ps sc go).2.1 =
        sc + (flipCount ps (update_pipes rect ps sc go).1 : Int) ∧
      sc ≤ (update_pipes rect ps sc go).2.1) ∧
    (∀ (now r : Nat) (s : GameState), s.game_over = false →
      s.score ≤ (update_game now r s).score) := by
  refine ⟨pipe_step_scores, pipe_step_passed_keeps_score, ?_, ?_⟩
  · intro rect ps sc go
    have h := update_pipes_score rect ps sc go
    exact ⟨h, by omega⟩
  · intro now r s h
    have := update_game_score_eq now r s
    omega

/-- Witness for C2: the slot `pipeNear` scores exactly once, and a live
frame update never lowers the score. -/
theorem scoring_latch_monotone_witness :
    (pipe_step { x := 200, y := 300, w := 40, h := 30 }
        pipeNear 4 false).1.passed = true ∧
    (pipe_step { x := 200, y := 300, w := 40, h := 30 }
        pipeNear 4 false).2.1 = 4 + 1 ∧
    stateA.score ≤ (update_game 0 0 stateA).score :=
  ⟨(scoring_latch_monotone.1 { x := 200, y := 300, w := 40, h := 30 }
      pipeNear 4 false (by decide) rfl (by decide)).1,
   (scoring_latch_monotone.1 { x := 200, y := 300, w := 40, h := 30 }
      pipeNear 4 false (by decide) rfl (by decide)).2,
   scoring_latch_monotone.2.2.2 0 0 stateA rfl⟩

/-- C5: during a live-frame update, if after the physics block the box
bottom `y + h` is strictly below the ground line `screen_height - 20 =
580`, `game_over` is set; in particular a post-physics box `y` of 570 with
height 30 triggers it. -/
theorem ground_check_sets_game_over (now r : Nat) (s : GameState)
    (h : s.game_over = false) :
    ((bird_physics s.bird).rect.y + (bird_physics s.bird).rect.h >
        SCREEN_HEIGHT - 20 →
      (update_game now r s).game_over = true) ∧
    ((bird_physics s.bird).rect.y = 570 →
      (bird_physics s.bird).rect.h = 30 →
      (update_game now r s).game_over = true) := by
  constructor
  · intro hg
    rw [update_game_game_over_eq, if_pos hg]
    simp
  · intro hy hh
    have hg : (bird_physics s.bird).rect.y + (bird_physics s.bird).rect.h >
        SCREEN_HEIGHT - 20 := by
      rw [hy, hh]
      norm_num [SCREEN_HEIGHT]
    rw [update_game_game_over_eq, if_pos hg]
    simp

/-- `trunc` at the integer literal 581. -/
theorem trunc_of_581 : trunc (581 : Rat) = 581 := by
  have h1 : (581 : Rat).num = 581 := by norm_num
  have h2 : ((581 : Rat).den : Int) = 1 := by norm_num
  rw [trunc, h1, h2, Int.tdiv_one]

/-- The physics block evaluated at `stateGround`: the bird lands at
box `y = 581`, past the ground line. -/
theorem bird_physics_stateGround :
    bird_physics stateGround.bird =
      { x := 200, y := 581, velocity := 1,
        rect := { x := 200, y := 581, w := 40, h := 30 } } := by
  have hv : stateGround.bird.velocity + GRAVITY = 1 := by
    norm_num [stateGround, GRAVITY]
  have hy : stateGround.bird.y + (1 : Rat) = 581 := by
    norm_num [stateGround]
  simp only [bird_physics, hv, hy, trunc_of_581]
  norm_num [stateGround]

/-- Witness for C5: from `stateGround` one update latches `game_over`. -/
theorem ground_check_witness :
    (update_game 0 0 stateGround).game_over = true :=
  (ground_check_sets_game_over 0 0 stateGround rfl).1
    (by rw [bird_physics_stateGround]; decide)

/-- C4: during a live-frame update, when the post-physics box `y` is
negative, the real `y`, the box `y`, and the velocity are all set to
exactly 0 (no bounce); with the bird's standard box height 30 the ground
check then cannot fire, so after such a frame `game_over` is exactly the
pipe-collision status — a ceiling contact alone never sets it. -/
theorem ceiling_clamp_spec (now r : Nat) (s : GameState)
    (hgo : s.game_over = false)
    (hcl : trunc (s.bird.y + (s.bird.velocity + GRAVITY)) < 0) :
    (update_game now r s).bird.y = 0 ∧
    (update_game now r s).bird.rect.y = 0 ∧
    (update_game now r s).bird.velocity = 0 ∧
    (s.bird.rect.h = BIRD_HEIGHT →
      (update_game now r s).game_over =
        pipes_collide (bird_physics s.bird).rect (spawn_step now r s).pipes) := by
  obtain ⟨h1, h2, h3⟩ := bird_physics_clamped s.bird hcl
  rw [update_game_bird]
  refine ⟨h1, h2, h3, ?_⟩
  intro hh
  rw [update_game_game_over_eq, hgo, h2, bird_physics_rect_h, hh]
  norm_num [BIRD_HEIGHT, SCREEN_HEIGHT]

/-- `trunc` at the integer literal -2. -/
theorem trunc_of_neg_two : trunc (-2 : Rat) = -2 := by
  have h1 : (-2 : Rat).num = -2 := by norm_num
  have h2 : ((-2 : Rat).den : Int) = 1 := by norm_num
  rw [trunc, h1, h2, Int.tdiv_one]

/-- Witness for C4: from `stateClamp` the update zeroes `y`, box `y`, and
velocity. -/
theorem ceiling_clamp_witness :
    (update_game 0 0 stateClamp).bird.y = 0 ∧
    (update_game 0 0 stateClamp).bird.rect.y = 0 ∧
    (update_game 0 0 stateClamp).bird.velocity = 0 := by
  have hsum : stateClamp.bird.y + (stateClamp.bird.velocity + GRAVITY) =
      -2 := by
    norm_num [stateClamp, GRAVITY]
  have hcl : trunc (stateClamp.bird.y + (stateClamp.bird.velocity + GRAVITY)) <
      0 := by
    rw [hsum, trunc_of_neg_two]
    norm_num
  obtain ⟨h1, h2, h3, h4⟩ := ceiling_clamp_spec 0 0 stateClamp rfl hcl
  exact ⟨h1, h2, h3⟩

/-- C1 (amended): after a live-frame update the bird's box `y` equals the
C truncation toward zero of the real `y` — which coincides with
`floor(y)` whenever `y ≥ 0`, but not for `y` in `(-1, 0)`, where the code
stores 0 and the floor is -1. -/
theorem box_y_is_trunc (now r : Nat) (s : GameState)
    (h : s.game_over = false) :
    (update_game now r s).bird.rect.y =
      trunc (update_game now r s).bird.y ∧
    (0 ≤ (update_game now r s).bird.y →
      (update_game now r s).bird.rect.y = ⌊(update_game now r s).bird.y⌋) := by
  rw [update_game_bird]
  exact ⟨bird_physics_rect_y s.bird,
         fun h0 => by rw [bird_physics_rect_y s.bird, trunc_eq_floor _ h0]⟩

/-- Witness for C1's amended statement at `stateA`. -/
theorem box_y_is_trunc_witness :
    (update_game 0 0 stateA).bird.rect.y =
      trunc (update_game 0 0 stateA).bird.y :=
  (box_y_is_trunc 0 0 stateA rfl).1

/-- Counterexample to C1 as stated: from `stateNeg` (live, `y = 0`,
velocity `-9/10`) one update leaves the real `y` at `-1/2` but the box `y`
at `0 = trunc(-1/2)`, while `floor(-1/2) = -1`: the box `y` is not the
floor of `y` for negative `y`. -/
theorem box_y_floor_counterexample :
    stateNeg.game_over = false ∧
    (update_game 0 0 stateNeg).bird.rect.y ≠
      ⌊(update_game 0 0 stateNeg).bird.y⌋ := by
  refine ⟨rfl, ?_⟩
  rw [update_game_bird]
  have hv : stateNeg.bird.velocity + GRAVITY = -1/2 := by
    norm_num [stateNeg, GRAVITY]
  have hy : stateNeg.bird.y + (-1/2 : Rat) = -1/2 := by
    norm_num [stateNeg]
  have hb : bird_physics stateNeg.bird =
      { x := 200, y := -1/2, velocity := -1/2,
        rect := { x := 200, y := 0, w := 40, h := 30 } } := by
    simp only [bird_physics, hv, hy, trunc_neg_half]
    norm_num [stateNeg]
  rw [hb]
  have hfl : ⌊(-1/2 : Rat)⌋ = -1 := by
    rw [Rat.floor_def]
    norm_num
  show (0 : Int) ≠ ⌊(-1/2 : Rat)⌋
  rw [hfl]
  decide
